import Mathlib

/-!
Verification of the qa-automation repository core: the password-based
AEAD encryptor (scripts/encryptor.py) and the dashboard aggregation and
classification engine (scripts/build_dashboard.py).

Bytes are modelled as `List Nat` with each element below 256.  Fallible
Python code that raises is modelled with `Except`.  The two library
primitives that live outside the repository (PBKDF2 key derivation and the
AES-GCM cipher from the `cryptography` package, and SHA-256 from `hashlib`)
are modelled from the spec as deterministic executable functions; every
other definition is translated directly from the Python source.
-/

/-- Errors raised by the encryptor module.  `typeError` and `valueError`
mirror the Python exceptions raised in scripts/encryptor.py; `invalidTag`
mirrors the `InvalidTag` raised by the external AES-GCM primitive on any
authentication failure. -/
inductive CryptoError where
  | valueError (msg : String)
  | invalidTag
deriving DecidableEq

/-- Constant from scripts/encryptor.py: salt size in bytes. -/
def SALT_SIZE : Nat := 16

/-- Constant from scripts/encryptor.py: nonce size in bytes. -/
def NONCE_SIZE : Nat := 12

/-- Constant from scripts/encryptor.py: PBKDF2 iteration count. -/
def KDF_ITERATIONS : Nat := 200000

/-- Constant from scripts/encryptor.py: derived key size in bytes. -/
def KEY_SIZE : Nat := 32

/-- Mixing step used by the modelled external primitives: a simple keyed
fold over bytes, bounded to 32 bits. -/
def mixStep (acc b : Nat) : Nat := (acc * 131 + b + 1) % 4294967296

/-- Hash of a byte list used by the modelled external primitives. -/
def listHash (l : List Nat) : Nat := l.foldl mixStep 7

/-- Modelled from the spec: the PBKDF2-HMAC-SHA256 derivation performed by
the external `cryptography` package (not part of the repository).  The spec
only relies on it being a deterministic function of password and salt, so it
is modelled as a deterministic keyed fold over both inputs. -/
def pbkdf2Key (password : String) (salt : List Nat) : Nat :=
  salt.foldl mixStep (password.data.foldl (fun acc c => mixStep acc c.toNat) (2166136261 + KDF_ITERATIONS))

/-- Translation of `_derive_key` from scripts/encryptor.py.  The Python
`TypeError` branch for a non-string password is ruled out by typing; the
salt length check is kept.  The derived key is modelled as a single natural
number (the 32 raw key bytes play no individual role in the claims). -/
def _derive_key (password : String) (salt : List Nat) : Except CryptoError Nat :=
  if salt.length < 8 then
    Except.error (CryptoError.valueError "salt must be bytes and at least 8 bytes long")
  else
    Except.ok (pbkdf2Key password salt)

/-- Keystream byte of the modelled AES-GCM cipher: a deterministic function
of key, nonce hash and byte index, always below 256. -/
def keyByte (key nh i : Nat) : Nat := (key + nh * 31 + i * 17 + 3) % 256

/-- Modelled AES-GCM body encryption: byte at index `i` is shifted by the
keystream byte, modulo 256. -/
def gcmMask (key nh : Nat) : Nat → List Nat → List Nat
  | _, [] => []
  | i, b :: bs => (b + keyByte key nh i) % 256 :: gcmMask key nh (i + 1) bs

/-- Modelled AES-GCM body decryption, inverse shift of `gcmMask`. -/
def gcmUnmask (key nh : Nat) : Nat → List Nat → List Nat
  | _, [] => []
  | i, c :: cs => (c + 256 - keyByte key nh i) % 256 :: gcmUnmask key nh (i + 1) cs

/-- Modelled AES-GCM authentication tag: 16 bytes determined by key, nonce
hash and plaintext. -/
def gcmTag (key nh : Nat) (pt : List Nat) : List Nat :=
  (List.range 16).map (fun i => (key + nh * 7 + listHash pt * 13 + i) % 256)

/-- Modelled from the spec: `AESGCM.encrypt` of the external `cryptography`
package.  It seals the plaintext with an authenticated cipher and returns
ciphertext body followed by a 16 byte authentication tag. -/
def aesgcmEncrypt (key : Nat) (nonce pt : List Nat) : List Nat :=
  gcmMask key (listHash nonce) 0 pt ++ gcmTag key (listHash nonce) pt

/-- Modelled from the spec: `AESGCM.decrypt` of the external `cryptography`
package.  Any failure, including a ciphertext shorter than the 16 byte tag
or a tag mismatch, is the `InvalidTag` authentication failure (`none`); no
partial plaintext is returned on failure. -/
def aesgcmDecrypt (key : Nat) (nonce ct : List Nat) : Option (List Nat) :=
  if ct.length < 16 then none
  else
    let body := ct.take (ct.length - 16)
    let tag := ct.drop (ct.length - 16)
    let pt := gcmUnmask key (listHash nonce) 0 body
    if gcmTag key (listHash nonce) pt = tag then some pt else none

/-- Translation of `_pack_encrypted` from scripts/encryptor.py:
salt followed by nonce followed by ciphertext. -/
def _pack_encrypted (salt nonce ciphertext : List Nat) : List Nat :=
  salt ++ nonce ++ ciphertext

/-- Translation of `_unpack_encrypted` from scripts/encryptor.py: rejects a
blob shorter than `SALT_SIZE + NONCE_SIZE + 1` bytes, otherwise splits it as
`blob[:16]`, `blob[16:28]`, `blob[28:]`. -/
def _unpack_encrypted (blob : List Nat) :
    Except CryptoError (List Nat × List Nat × List Nat) :=
  if blob.length < SALT_SIZE + NONCE_SIZE + 1 then
    Except.error (CryptoError.valueError "Encrypted blob too small or corrupted")
  else
    Except.ok (blob.take SALT_SIZE, (blob.drop SALT_SIZE).take NONCE_SIZE,
      blob.drop (SALT_SIZE + NONCE_SIZE))

/-- Translation of `encrypt_data` from scripts/encryptor.py.  The Python
function draws `salt` and `nonce` from `os.urandom`; they are explicit
parameters here.  The `TypeError` branch for non-bytes plaintext is ruled
out by typing. -/
def encrypt_data (plaintext : List Nat) (password : String)
    (salt nonce : List Nat) : Except CryptoError (List Nat) :=
  if password = "" then
    Except.error (CryptoError.valueError "password must not be empty")
  else
    match _derive_key password salt with
    | Except.error e => Except.error e
    | Except.ok key =>
        Except.ok (_pack_encrypted salt nonce (aesgcmEncrypt key nonce plaintext))

/-- Translation of `decrypt_data` from scripts/encryptor.py.  The blob is
unpacked, the key re-derived, and the ciphertext opened; the external
`InvalidTag` failure becomes `CryptoError.invalidTag`. -/
def decrypt_data (enc_blob : List Nat) (password : String) :
    Except CryptoError (List Nat) :=
  if password = "" then
    Except.error (CryptoError.valueError "password must not be empty")
  else
    match _unpack_encrypted enc_blob with
    | Except.error e => Except.error e
    | Except.ok (salt, nonce, ciphertext) =>
        match _derive_key password salt with
        | Except.error e => Except.error e
        | Except.ok key =>
            match aesgcmDecrypt key nonce ciphertext with
            | some pt => Except.ok pt
            | none => Except.error CryptoError.invalidTag

/-- Equality on `Except` results is decidable; used to evaluate concrete
encryption and decryption outcomes. -/
instance {e a : Type} [DecidableEq e] [DecidableEq a] : DecidableEq (Except e a) := fun x y =>
  match x, y with
  | Except.error u, Except.error v =>
    match decEq u v with
    | isTrue h => isTrue (congrArg Except.error h)
    | isFalse h => isFalse (fun hc => h (Except.error.inj hc))
  | Except.error _, Except.ok _ => isFalse (fun hc => Except.noConfusion hc)
  | Except.ok _, Except.error _ => isFalse (fun hc => Except.noConfusion hc)
  | Except.ok u, Except.ok v =>
    match decEq u v with
    | isTrue h => isTrue (congrArg Except.ok h)
    | isFalse h => isFalse (fun hc => h (Except.ok.inj hc))

/-- A file system state: each path maps to the byte contents of the file at
that path, or `none` when the path is absent. -/
abbrev FS : Type := String → Option (List Nat)

/-- Point update of a file system state. -/
def FS.set (fs : FS) (p : String) (c : Option (List Nat)) : FS :=
  fun q => if q = p then c else fs q

/-- Errors of `encrypt_file`: the missing-input check of the Python source
or a propagated encryptor error. -/
inductive FileError where
  | fileNotFound
  | crypto (e : CryptoError)
deriving DecidableEq

/-- The file system states observable while the blob is written byte by byte
to the temporary path: state `k` holds the first `k` bytes of the blob. -/
def writeTrace (fs : FS) (p : String) (c : List Nat) : List FS :=
  (List.range (c.length + 1)).map (fun k => fs.set p (some (c.take k)))

/-- Model of `os.replace`: atomically moves the source contents onto the
destination path and removes the source path. -/
def os_replace (fs : FS) (src dst : String) : FS :=
  (fs.set dst (fs src)).set src none

/-- Translation of `encrypt_file` from scripts/encryptor.py over the file
system model.  The result is the list of every observable file system state
(initial state, each partial write of the temporary file, the state after
the atomic rename, and the state after the optional removal of the
original) paired with the returned value.  `salt` and `nonce` are the
random bytes drawn inside `encrypt_data`; `remove_ok` models whether the
final `os.remove` succeeds — its failure is caught by the bare `except`
clause of the source and ignored. -/
def encrypt_file (fs : FS) (in_path password : String) (out_path? : Option String)
    (remove_original : Bool) (salt nonce : List Nat) (remove_ok : Bool) :
    List FS × Except FileError String :=
  match fs in_path with
  | none => ([fs], Except.error FileError.fileNotFound)
  | some data =>
    let out_path := out_path?.getD (in_path ++ ".enc")
    match encrypt_data data password salt nonce with
    | Except.error e => ([fs], Except.error (FileError.crypto e))
    | Except.ok enc =>
      let tmp_path := out_path ++ ".tmp"
      let written := fs.set tmp_path (some enc)
      let replaced := os_replace written tmp_path out_path
      if remove_original then
        let final := if remove_ok then replaced.set in_path none else replaced
        (fs :: (writeTrace fs tmp_path enc ++ [replaced, final]), Except.ok out_path)
      else
        (fs :: (writeTrace fs tmp_path enc ++ [replaced]), Except.ok out_path)

/-- Concrete file system used by the witnesses and the atomicity
counterexample. -/
def fsW : FS := fun p => if p = "plain.txt" then some [1, 2] else none

/-- Concrete salt drawn by `os.urandom` in the witnesses. -/
def saltW : List Nat := List.replicate 16 3

/-- Concrete nonce drawn by `os.urandom` in the witnesses. -/
def nonceW : List Nat := List.replicate 12 4

/-- Concrete file system for the atomicity counterexample: the output path
already holds a prior complete blob. -/
def fsC : FS := fun p => if p = "f" then some [9] else none

/-- Python string comparison on the underlying character list:
lexicographic by Unicode code point.  This models the `>` comparison of end
timestamps in the tie-break of scripts/build_dashboard.py (with swapped
arguments). -/
def pyLtL : List Char → List Char → Bool
  | [], [] => false
  | [], _ :: _ => true
  | _ :: _, [] => false
  | a :: as, b :: bs =>
      if a.toNat < b.toNat then true
      else if b.toNat < a.toNat then false
      else pyLtL as bs

/-- Python `a < b` on strings. -/
def pyStrLt (a b : String) : Bool := pyLtL a.data b.data

/-- Python truthiness of an optional string: `None` and the empty string
are falsy. -/
def pyTruthy (o : Option String) : Option String :=
  match o with
  | none => none
  | some s => if s = "" then none else some s

/-- Replacement of every non-overlapping occurrence of a nonempty pattern,
scanning left to right: a model of Python `str.replace` on character lists.
The first argument is recursion fuel; each iteration consumes at least one
character, so with fuel at least the list length the fuel never runs out.
Structural recursion on the fuel keeps the function kernel-evaluable. -/
def replaceGo (pat rep : List Char) : Nat → List Char → List Char
  | _, [] => []
  | 0, l => l
  | Nat.succ fuel, c :: cs =>
      if pat ≠ [] ∧ (c :: cs).take pat.length = pat then
        rep ++ replaceGo pat rep fuel ((c :: cs).drop pat.length)
      else
        c :: replaceGo pat rep fuel cs

/-- Python `str.replace` on strings. -/
def pyReplace (s pat rep : String) : String :=
  String.mk (replaceGo pat.data rep.data s.data.length s.data)

/-- Python character slicing `s[:n]`. -/
def strTake (s : String) (n : Nat) : String := String.mk (s.data.take n)

/-- Python character slicing `s[n:]`. -/
def strDrop (s : String) (n : Nat) : String := String.mk (s.data.drop n)

/-- The date key computed by `build_dashboard`:
`datetime.fromisoformat(ts.replace("Z", "+00:00")).strftime("%Y.%m.%d")`.
On a well-formed timezone-aware ISO-8601 timestamp this equals the first
ten characters with the dashes replaced by dots; the Python expression
performs no timezone conversion. -/
def dateKey (ts : String) : String :=
  pyReplace (strTake (pyReplace ts "Z" "+00:00") 10) "-" "."

/-- A run record of data/results.json, as produced by scripts/parse_html.py
and consumed by scripts/build_dashboard.py.  Every field may be absent
(`none`); the `.get(key, default)` and `or 0` coercions of the source are
modelled with `Option.getD`.  JSON-null values are identified with absent
fields, and count fields are natural numbers.  `end_` stands for the
Python key `end`, a reserved word in Lean; `color` is the field assigned
by `build_dashboard` just before a record is stored in the index. -/
structure Record where
  html_file : Option String := none
  project : Option String := none
  test_suite_id : Option String := none
  profile : Option String := none
  test_cases : Option Nat := none
  passed : Option Nat := none
  failed : Option Nat := none
  error : Option Nat := none
  incomplete : Option Nat := none
  skipped : Option Nat := none
  start : Option String := none
  end_ : Option String := none
  duration : Option Nat := none
  retry_count : Option Nat := none
  color : Option String := none
deriving DecidableEq

/-- Translation of `get_color` from scripts/build_dashboard.py. -/
def get_color (record : Record) : String :=
  let total := record.test_cases.getD 0
  let passed := record.passed.getD 0
  let failed := record.failed.getD 0
  let errored := record.error.getD 0
  let incomplete := record.incomplete.getD 0
  let skipped := record.skipped.getD 0
  let retry := record.retry_count.getD 0
  let total_calc := passed + failed + errored + incomplete + skipped
  if total_calc ≠ total then "red"
  else if passed = total then (if retry > 0 then "yellow" else "green")
  else "red"

/-- The timestamp string the grouping loop keys on:
`start = r.get("start") or r.get("end")`, with the subsequent
`if not start: continue`, composed with the date formatting. -/
def recordDate (r : Record) : Option String :=
  match pyTruthy r.start with
  | some s => some (dateKey s)
  | none =>
      match pyTruthy r.end_ with
      | some e => some (dateKey e)
      | none => none

/-- The (project, suite, date) key of a record, or `none` when the record
is skipped for lack of a usable timestamp.  Missing identifiers default to
"Unknown" as in `r.get("project", "Unknown")`. -/
def recordKey (r : Record) : Option (String × String × String) :=
  match recordDate r with
  | none => none
  | some d => some (r.project.getD "Unknown", r.test_suite_id.getD "Unknown", d)

/-- The record as stored in the index: `r["color"] = get_color(r)`. -/
def withColor (r : Record) : Record := { r with color := some (get_color r) }

/-- Innermost map of the index: date key to record. -/
abbrev DateMap : Type := List (String × Record)

/-- Middle map of the index: suite id to date map. -/
abbrev SuiteMap : Type := List (String × DateMap)

/-- The aggregate index `data`: insertion-ordered nested association lists
mirroring the Python nested `defaultdict` project → suite → date. -/
abbrev Grouped : Type := List (String × SuiteMap)

/-- Lookup in an insertion-ordered association list (Python dict access). -/
def lookA {α : Type} (k : String) : List (String × α) → Option α
  | [] => none
  | (k2, v) :: t => if k2 = k then some v else lookA k t

/-- Write through an insertion-ordered association list: update the
existing entry in place or append a new one, as Python `d[k] = v`. -/
def setA {α : Type} (k : String) (v : α) : List (String × α) → List (String × α)
  | [] => [(k, v)]
  | (k2, v2) :: t => if k2 = k then (k2, v) :: t else (k2, v2) :: setA k v t

/-- Update the value at a key, creating it from a default when absent: the
`defaultdict` access pattern `d[k]` followed by a mutation of the entry. -/
def modA {α : Type} (k : String) (dflt : α) (f : α → α) : List (String × α) → List (String × α)
  | [] => [(k, f dflt)]
  | (k2, v) :: t => if k2 = k then (k2, f v) :: t else (k2, v) :: modA k dflt f t

/-- Triple lookup `data[project][suite][date]`, without creation. -/
def lookup3 (g : Grouped) (k : String × String × String) : Option Record :=
  lookA k.2.2 ((lookA k.2.1 ((lookA k.1 g).getD [])).getD [])

/-- Triple write `data[project][suite][date] = r`. -/
def ins3 (g : Grouped) (k : String × String × String) (r : Record) : Grouped :=
  modA k.1 [] (fun sm => modA k.2.1 [] (fun dm => setA k.2.2 r dm) sm) g

/-- The end timestamp as compared by the tie-break: `r.get("end", "")`. -/
def endOf (r : Record) : String := r.end_.getD ""

/-- One iteration of the grouping loop of `build_dashboard`: records
without a usable timestamp are skipped; otherwise the record (with its
computed color) is stored when the date slot is empty or when the stored
end timestamp is strictly smaller in Python string order. -/
def step (g : Grouped) (r : Record) : Grouped :=
  match recordKey r with
  | none => g
  | some k =>
      match lookup3 g k with
      | none => ins3 g k (withColor r)
      | some old =>
          if pyStrLt (endOf old) (endOf r) then ins3 g k (withColor r)
          else g

/-- The grouping fold of `build_dashboard` over the results list: the
ingestion of the claims. -/
def buildData (results : List Record) : Grouped := results.foldl step []

/-- Concrete record: key ("P","S","2024.01.01"), end 10:00, passed 1 of 1. -/
def rC0 : Record :=
  { project := some "P",
    test_suite_id := some "S",
    start := some "2024-01-01T09:00:00Z",
    end_ := some "2024-01-01T10:00:00Z",
    test_cases := some 1,
    passed := some 1 }

/-- Concrete record: same key and same end timestamp as `rC0`, different
counts. -/
def rD0 : Record := { rC0 with test_cases := some 2, passed := some 2 }

/-- Concrete record: key ("P","S","2024.01.01"), start 08:00, end 09:00. -/
def rE0 : Record :=
  { project := some "P",
    test_suite_id := some "S",
    start := some "2024-01-01T08:00:00Z",
    end_ := some "2024-01-01T09:00:00Z",
    test_cases := some 1,
    passed := some 1 }

/-- Concrete record: like `rE0` with the later end timestamp 10:00. -/
def rF0 : Record := { rE0 with end_ := some "2024-01-01T10:00:00Z" }

/-- Concrete record for the tie-break counterexample: start 08:00. -/
def rA0 : Record :=
  { project := some "P",
    test_suite_id := some "S",
    start := some "2024-01-01T08:00:00Z",
    end_ := some "2024-01-01T10:00:00Z",
    test_cases := some 1,
    passed := some 1 }

/-- Concrete record: same key and end timestamp as `rA0`, later start. -/
def rB0 : Record := { rA0 with start := some "2024-01-01T09:00:00Z" }

/-- Concrete record: 10 of 10 passed, no retries. -/
def rGreen : Record := { test_cases := some 10, passed := some 10 }

/-- The record with no fields at all: total 0, no evidence of execution. -/
def rEmpty : Record := {}

/-- Concrete record whose start and end timestamps fall on different
calendar dates. -/
def rE1 : Record :=
  { project := some "P",
    test_suite_id := some "S",
    start := some "2024-03-01T23:00:00Z",
    end_ := some "2024-03-02T01:00:00Z",
    test_cases := some 1,
    passed := some 1 }

/-- Hex digit character for a value below 16. -/
def hexDigit (n : Nat) : Char := Char.ofNat (if n < 10 then 48 + n else 87 + n)

/-- Modelled from the spec: `hashlib.sha256(...).hexdigest()` used by
`build_dashboard`; the hash library is external to the repository.  It is
modelled as a deterministic 64 hex-character digest of the input string:
only determinism, the fixed output length and sensitivity to the input
matter for the claims about the dashboard. -/
def sha256Hex (s : String) : String :=
  let h := s.data.foldl (fun acc c => mixStep acc c.toNat) 5381
  String.mk ((List.range 64).map (fun i => hexDigit ((h / 16 ^ (i % 8) + i) % 16)))

/-- The dashboard password gate value of `build_dashboard`:
`hashlib.sha256(password.encode()).hexdigest() if password else ""`. -/
def passwordHash (password : String) : String :=
  if password = "" then "" else sha256Hex password

/-- JSON string literal; the schema values of this pipeline contain no
characters that need JSON escaping. -/
def jsonStr (s : String) : String := "\"" ++ s ++ "\""

/-- JSON value of an optional string: `null` for Python `None`. -/
def jsonOptStr : Option String → String
  | none => "null"
  | some s => jsonStr s

/-- JSON value of an optional number: `null` for Python `None`. -/
def jsonOptNat : Option Nat → String
  | none => "null"
  | some n => toString n

/-- Serialization of one record dict by `json.dumps`, with the key order of
the dict built in scripts/parse_html.py followed by the `color` key added
by `build_dashboard`. -/
def jsonOfRecord (r : Record) : String :=
  "\x7b\"html_file\": " ++ jsonOptStr r.html_file ++
  ", \"project\": " ++ jsonOptStr r.project ++
  ", \"test_suite_id\": " ++ jsonOptStr r.test_suite_id ++
  ", \"profile\": " ++ jsonOptStr r.profile ++
  ", \"test_cases\": " ++ jsonOptNat r.test_cases ++
  ", \"passed\": " ++ jsonOptNat r.passed ++
  ", \"failed\": " ++ jsonOptNat r.failed ++
  ", \"error\": " ++ jsonOptNat r.error ++
  ", \"incomplete\": " ++ jsonOptNat r.incomplete ++
  ", \"skipped\": " ++ jsonOptNat r.skipped ++
  ", \"start\": " ++ jsonOptStr r.start ++
  ", \"end\": " ++ jsonOptStr r.end_ ++
  ", \"duration\": " ++ jsonOptNat r.duration ++
  ", \"retry_count\": " ++ jsonOptNat r.retry_count ++
  ", \"color\": " ++ jsonOptStr r.color ++ "\x7d"

/-- JSON object for the innermost date map. -/
def jsonOfDateMap (dm : DateMap) : String :=
  "\x7b" ++ String.intercalate ", "
    (dm.map (fun kv => jsonStr kv.1 ++ ": " ++ jsonOfRecord kv.2)) ++ "\x7d"

/-- JSON object for a suite map. -/
def jsonOfSuiteMap (sm : SuiteMap) : String :=
  "\x7b" ++ String.intercalate ", "
    (sm.map (fun kv => jsonStr kv.1 ++ ": " ++ jsonOfDateMap kv.2)) ++ "\x7d"

/-- JSON object for the whole grouped index: `json.dumps(data)` in
insertion order, as Python dicts preserve it. -/
def jsonOfGrouped (g : Grouped) : String :=
  "\x7b" ++ String.intercalate ", "
    (g.map (fun kv => jsonStr kv.1 ++ ": " ++ jsonOfSuiteMap kv.2)) ++ "\x7d"

/-- Ascending comparator of Python `sorted` as a Bool: not (b < a). -/
def pyLeB (a b : String) : Bool := ! pyStrLt b a

/-- Sorted insertion, ascending. -/
def insertAsc (a : String) : List String → List String
  | [] => [a]
  | b :: t => if pyLeB a b then a :: b :: t else b :: insertAsc a t

/-- Python `sorted` on the duplicate-free key lists of the dashboard. -/
def sortAsc (l : List String) : List String := l.foldr insertAsc []

/-- Sorted insertion, descending. -/
def insertDesc (a : String) : List String → List String
  | [] => [a]
  | b :: t => if pyLeB b a then a :: b :: t else b :: insertDesc a t

/-- Python `sorted(..., reverse=True)` on a duplicate-free list. -/
def sortDesc (l : List String) : List String := l.foldr insertDesc []

/-- Deduplication keeping first occurrences (the set construction of
`all_dates`); fuel-based structural recursion, with fuel at least the list
length, keeps it kernel-evaluable. -/
def dedupGo : Nat → List String → List String
  | _, [] => []
  | 0, l => l
  | Nat.succ fuel, a :: t => a :: dedupGo fuel (t.filter (fun x => x ≠ a))

/-- The distinct elements of a list of strings, first occurrences first. -/
def dedupStr (l : List String) : List String := dedupGo l.length l

/-- Every date key occurring in the index, with repetitions. -/
def allDatesOf (data : Grouped) : List String :=
  data.flatMap (fun ps => ps.2.flatMap (fun ss => ss.2.map (fun dr => dr.1)))

/-- The column dates of the dashboard:
`sorted({dates}, reverse=True)[:365]`. -/
def allDates (data : Grouped) : List String :=
  (sortDesc (dedupStr (allDatesOf data))).take 365

/-- The maximum display length of a suite name, driving the adaptive width
of the first column. -/
def maxSuiteLen (data : Grouped) : Nat :=
  data.foldl (fun m ps =>
    ps.2.foldl (fun m2 ss =>
      max m2 (pyReplace ss.1 "Test Suites/" "").length) m) 0

/-- One colored dashboard cell for a stored record.  The stored record
always carries the `color` field assigned at insertion. -/
def cellFor (project suite date : String) (record : Record) : String :=
  let color := record.color.getD ""
  let passed := record.passed.getD 0
  let total := record.test_cases.getD 0
  let failed : Int := if total ≠ 0 then (total : Int) - (passed : Int) else 0
  "<td class=\x27" ++ color ++ "\x27 onmousemove=\x27showTooltip(event, \"" ++
    project ++ "\", \"" ++ suite ++ "\", \"" ++ date ++
    "\")\x27 onmouseleave=\x27hideTooltip()\x27 onclick=\x27openReport(\"" ++
    project ++ "\", \"" ++ suite ++ "\", \"" ++ date ++ "\")\x27>" ++
    toString passed ++ "/" ++ toString failed ++ "</td>"

/-- The table row of one suite: name cell, one cell per date column, then
the closing tag — one list element per string appended by the source. -/
def suiteRow (project suite : String) (dm : DateMap) (dates : List String) : List String :=
  ("<tr><td class=\x27suite-name\x27>" ++ pyReplace suite "Test Suites/" "" ++ "</td>") ::
  (dates.map (fun date =>
    match lookA date dm with
    | some record => cellFor project suite date record
    | none => "<td class=\x27empty\x27>–</td>")) ++ ["</tr>"]

/-- The rows of one project: the project header row followed by the suite
rows in sorted order. -/
def projectBlock (dates : List String) (project : String) (sm : SuiteMap) : List String :=
  ("<tr><td class=\x27project-header\x27>" ++ project ++ "</td>" ++
    String.join (List.replicate dates.length "<td class=\x27project-separator\x27></td>") ++
    "</tr>") ::
  (sortAsc (sm.map (fun x => x.1))).flatMap (fun suite =>
    suiteRow project suite ((lookA suite sm).getD []) dates)

/-- All table body rows: projects in sorted order. -/
def allRows (data : Grouped) (dates : List String) : List String :=
  (sortAsc (data.map (fun x => x.1))).flatMap (fun project =>
    projectBlock dates project ((lookA project data).getD []))

/-- The header row of the table: one `th` per date column, printed without
the year prefix (`d[5:]`). -/
def headerRow (dates : List String) : String :=
  "<tr><th>Test Suite</th>" ++
    String.join (dates.map (fun d => "<th>" ++ strDrop d 5 ++ "</th>")) ++ "</tr>"

/-- The literal head of the `html` list of `build_dashboard`: style and
script boilerplate, the `PASSWORD_HASH` constant, the serialized data, the
login markup, and the table header row.  One Lean list element per Python
list element; literal braces and apostrophes are written with hexadecimal
escapes. -/
def htmlHead (password_hash dataJson : String) (left_col_width : Nat)
    (dates : List String) : List String :=
  ["<html><head><meta charset=\x27utf-8\x27><title>QA Automation Report</title>",
    "<style>",
    "body \x7b background-color: #1e1e1e; color: #ddd; font-family: Arial, sans-serif; margin:0; padding:0; \x7d",
    "h1 \x7b color: #fff; padding: 10px 0 10px 16px; margin:0; \x7d",
    "#login-container \x7b display: flex; align-items: center; justify-content: center; height: 100vh; flex-direction: column; \x7d",
    "#login-box \x7b background-color: #2b2b2b; padding: 30px; border-radius: 8px; box-shadow: 0 4px 6px rgba(0,0,0,0.3); \x7d",
    "#login-box h2 \x7b margin-top: 0; color: #fff; \x7d",
    "#password-input \x7b width: 250px; padding: 10px; margin: 10px 0; background-color: #1e1e1e; border: 1px solid #444; color: #ddd; border-radius: 4px; \x7d",
    "#login-button \x7b padding: 10px 20px; background-color: #2e7d32; color: #fff; border: none; border-radius: 4px; cursor: pointer; font-weight: bold; \x7d",
    "#login-button:hover \x7b background-color: #1b5e20; \x7d",
    "#error-message \x7b color: #c62828; margin-top: 10px; display: none; \x7d",
    "#dashboard-content \x7b display: none; \x7d",
    "table \x7b border-collapse: collapse; \x7d",
    "th, td \x7b border: 1px solid #444; text-align: center; padding: 6px; \x7d",
    "th \x7b background-color: #2b2b2b; font-weight: bold; position: sticky; top: 0; z-index: 2; \x7d",
    "th::before \x7b content: \x27\x27; position: absolute; top: -1px; left: 0; right: 0; height: 1px; background-color: #2b2b2b; \x7d",
    "th:first-child \x7b position: sticky; left: 0; z-index: 4; background-color: #2b2b2b; text-align: left; padding-left: 8px; border-right: 2px solid #444; \x7d",
    "th:first-child::before \x7b content: \x27\x27; position: absolute; top: -1px; left: -1px; width: calc(100% + 1px); height: calc(100% + 1px); background-color: #2b2b2b; z-index: -1; \x7d",
    "td.green \x7b background-color: #2e7d32; color: #fff; cursor: pointer; \x7d",
    "td.yellow \x7b background-color: #f9a825; color: #000; cursor: pointer; \x7d",
    "td.red \x7b background-color: #c62828; color: #fff; cursor: pointer; \x7d",
    "td.green:hover, td.yellow:hover, td.red:hover \x7b opacity: 0.8; \x7d",
    "td.empty \x7b background-color: #2b2b2b; color: #666; \x7d",
    "td.project-separator \x7b background-color: #1e1e1e; \x7d",
    ".suite-name \x7b position: sticky; left: 0; background-color: #1e1e1e; width: " ++ toString left_col_width ++ "px; text-align: left; padding-left: 8px; font-weight: normal; z-index:1; border-right: 2px solid #444; \x7d",
    ".suite-name::before \x7b content: \x27\x27; position: absolute; left: -1px; top: 0; width: 1px; bottom: 0; background-color: #1e1e1e; \x7d",
    ".project-header \x7b position: sticky; left: 0; display: table-cell; background-color: #1e1e1e; text-align: left; padding-left: 8px; font-weight: bold; z-index: 1; border-right: 2px solid #444; border-bottom: 2px solid #444; \x7d",
    ".project-header::before \x7b content: \x27\x27; position: absolute; left: -1px; top: 0; width: 1px; bottom: 0; background-color: #1e1e1e; \x7d",
    ".table-container \x7b overflow-x: auto; overflow-y: auto; max-height: 90vh; \x7d",
    ".tooltip \x7b position: absolute; display: none; background-color: #2b2b2b; border: 1px solid #444; padding: 10px; border-radius: 4px; z-index: 1000; pointer-events: none; white-space: nowrap; \x7d",
    ".tooltip-row \x7b margin: 3px 0; \x7d",
    ".tooltip-label \x7b font-weight: bold; display: inline-block; width: 100px; \x7d",
    "</style>",
    "<script>",
    "const PASSWORD_HASH = \x27" ++ password_hash ++ "\x27;",
    "const data = " ++ dataJson ++ ";",
    "",
    "async function hashPassword(password) \x7b",
    "  const msgBuffer = new TextEncoder().encode(password);",
    "  const hashBuffer = await crypto.subtle.digest(\x27SHA-256\x27, msgBuffer);",
    "  const hashArray = Array.from(new Uint8Array(hashBuffer));",
    "  return hashArray.map(b => b.toString(16).padStart(2, \x270\x27)).join(\x27\x27);",
    "\x7d",
    "",
    "async function checkPassword() \x7b",
    "  const password = document.getElementById(\x27password-input\x27).value;",
    "  const hash = await hashPassword(password);",
    "  if (hash === PASSWORD_HASH) \x7b",
    "    sessionStorage.setItem(\x27reportPassword\x27, password);",
    "    document.getElementById(\x27login-container\x27).style.display = \x27none\x27;",
    "    document.getElementById(\x27dashboard-content\x27).style.display = \x27block\x27;",
    "  \x7d else \x7b",
    "    document.getElementById(\x27error-message\x27).style.display = \x27block\x27;",
    "  \x7d",
    "\x7d",
    "",
    "document.addEventListener(\x27DOMContentLoaded\x27, function() \x7b",
    "  const savedPassword = sessionStorage.getItem(\x27reportPassword\x27);",
    "  if (savedPassword) \x7b",
    "    hashPassword(savedPassword).then(hash => \x7b",
    "      if (hash === PASSWORD_HASH) \x7b",
    "        document.getElementById(\x27login-container\x27).style.display = \x27none\x27;",
    "        document.getElementById(\x27dashboard-content\x27).style.display = \x27block\x27;",
    "      \x7d",
    "    \x7d);",
    "  \x7d",
    "  document.getElementById(\x27password-input\x27).addEventListener(\x27keypress\x27, function(e) \x7b",
    "    if (e.key === \x27Enter\x27) checkPassword();",
    "  \x7d);",
    "\x7d);",
    "",
    "function showTooltip(e, project, suite, date) \x7b",
    "  const record = data[project][suite][date];",
    "  if (!record) return;",
    "  const tooltip = document.getElementById(\x27tooltip\x27);",
    "  const start = new Date(record.start);",
    "  const end = new Date(record.end);",
    "  const formatDate = (d) => d.getFullYear().toString().slice(2) + \x27/\x27 + ",
    "    String(d.getMonth()+1).padStart(2,\x270\x27) + \x27/\x27 + String(d.getDate()).padStart(2,\x270\x27) + \x27 - \x27 +",
    "    String(d.getHours()).padStart(2,\x270\x27) + \x27:\x27 + String(d.getMinutes()).padStart(2,\x270\x27) + \x27:\x27 + String(d.getSeconds()).padStart(2,\x270\x27);",
    "  const totalSeconds = Math.floor(record.duration * 60);",
    "  const minutes = Math.floor(totalSeconds / 60);",
    "  const seconds = totalSeconds % 60;",
    "  const durationStr = String(minutes).padStart(2,\x270\x27) + \x27:\x27 + String(seconds).padStart(2,\x270\x27);",
    "  tooltip.innerHTML = `",
    "    <div class=\x27tooltip-row\x27><span class=\x27tooltip-label\x27>Profile:</span><strong>$\x7brecord.profile || \x27N/A\x27\x7d</strong></div>",
    "    <div class=\x27tooltip-row\x27><span class=\x27tooltip-label\x27>Test Cases:</span>$\x7brecord.test_cases || 0\x7d</div>",
    "    <div class=\x27tooltip-row\x27><span class=\x27tooltip-label\x27>Passed:</span>$\x7brecord.passed || 0\x7d</div>",
    "    <div class=\x27tooltip-row\x27><span class=\x27tooltip-label\x27>Failed:</span>$\x7brecord.failed || 0\x7d</div>",
    "    <div class=\x27tooltip-row\x27><span class=\x27tooltip-label\x27>Error:</span>$\x7brecord.error || 0\x7d</div>",
    "    <div class=\x27tooltip-row\x27><span class=\x27tooltip-label\x27>Incomplete:</span>$\x7brecord.incomplete || 0\x7d</div>",
    "    <div class=\x27tooltip-row\x27><span class=\x27tooltip-label\x27>Skipped:</span>$\x7brecord.skipped || 0\x7d</div>",
    "    <div class=\x27tooltip-row\x27><span class=\x27tooltip-label\x27>Retry:</span>$\x7brecord.retry_count || 0\x7d</div>",
    "    <div class=\x27tooltip-row\x27><span class=\x27tooltip-label\x27>Start:</span>$\x7bformatDate(start)\x7d</div>",
    "    <div class=\x27tooltip-row\x27><span class=\x27tooltip-label\x27>End:</span>$\x7bformatDate(end)\x7d</div>",
    "    <div class=\x27tooltip-row\x27><span class=\x27tooltip-label\x27>Duration:</span>$\x7bdurationStr\x7d</div>",
    "  `;",
    "  tooltip.style.display = \x27block\x27;",
    "  tooltip.style.left = (e.pageX + 10) + \x27px\x27;",
    "  tooltip.style.top = (e.pageY + 10) + \x27px\x27;",
    "\x7d",
    "function hideTooltip() \x7b",
    "  document.getElementById(\x27tooltip\x27).style.display = \x27none\x27;",
    "\x7d",
    "function openReport(project, suite, date) \x7b",
    "  const record = data[project][suite][date];",
    "  if (record && record.html_file) \x7b",
    "    const path = record.html_file.replace(\x27docs/\x27, \x27\x27);",
    "    window.open(path, \x27_blank\x27);",
    "  \x7d",
    "\x7d",
    "</script>",
    "</head><body>",
    "<div id=\x27login-container\x27>",
    "  <div id=\x27login-box\x27>",
    "    <h2>QA Automation Report</h2>",
    "    <div>",
    "      <input type=\x27password\x27 id=\x27password-input\x27 placeholder=\x27Enter password\x27 autofocus>",
    "    </div>",
    "    <div>",
    "      <button id=\x27login-button\x27 onclick=\x27checkPassword()\x27>Login</button>",
    "    </div>",
    "    <div id=\x27error-message\x27>Incorrect password. Please try again.</div>",
    "  </div>",
    "</div>",
    "<div id=\x27dashboard-content\x27>",
    "<div id=\x27tooltip\x27 class=\x27tooltip\x27></div>",
    "<h1>QA Automation Report</h1>",
    "<div class=\x27table-container\x27>",
    "<table>",
    headerRow dates]

/-- Translation of `build_dashboard` from scripts/build_dashboard.py over
the results list (the parsed content of data/results.json) and the
REPORT_PASSWORD environment value.  An empty results list aborts without
writing (`none`); otherwise the function returns the text written to the
output file: the newline join of the html line list. -/
def build_dashboard (results : List Record) (password : String) : Option String :=
  if results.isEmpty then none
  else
    let password_hash := passwordHash password
    let data := buildData results
    let left_col_width := maxSuiteLen data * 9 + 16
    let dates := allDates data
    some (String.intercalate "\n"
      (htmlHead password_hash (jsonOfGrouped data) left_col_width dates ++
        allRows data dates ++
        ["</table>", "</div>", "</div>", "</body></html>"]))

/-- The newline-separated tail of a joined line list: `joinSep sep l` is
the concatenation `sep ++ l₀ ++ sep ++ l₁ ++ ...`. -/
def joinSep (sep : String) : List String → String
  | [] => ""
  | a :: as => sep ++ a ++ joinSep sep as

theorem keyByte_lt (key nh i : Nat) : keyByte key nh i < 256 :=
  Nat.mod_lt _ (by decide)

theorem byte_unmask (b x : Nat) (hb : b < 256) (hx : x < 256) :
    ((b + x) % 256 + 256 - x) % 256 = b := by
  have h1 : (b + x) % 256 + 256 - x = (b + x) % 256 + (256 - x) := by omega
  rw [h1, Nat.mod_add_mod]
  have h2 : b + x + (256 - x) = b + 256 := by omega
  rw [h2, Nat.add_mod_right, Nat.mod_eq_of_lt hb]

theorem gcmUnmask_gcmMask (key nh : Nat) (pt : List Nat)
    (hb : ∀ b ∈ pt, b < 256) :
    ∀ i, gcmUnmask key nh i (gcmMask key nh i pt) = pt := by
  induction pt with
  | nil => intro i; rfl
  | cons b bs ih =>
      intro i
      have hb0 : b < 256 := hb b (List.mem_cons_self b bs)
      have hbs : ∀ x ∈ bs, x < 256 := fun x hx => hb x (List.mem_cons_of_mem b hx)
      simp only [gcmMask, gcmUnmask]
      rw [byte_unmask b (keyByte key nh i) hb0 (keyByte_lt key nh i), ih hbs (i + 1)]

theorem gcmMask_length (key nh : Nat) :
    ∀ (i : Nat) (pt : List Nat), (gcmMask key nh i pt).length = pt.length := by
  intro i pt
  induction pt generalizing i with
  | nil => rfl
  | cons b bs ih => simp [gcmMask, ih]

theorem gcmTag_length (key nh : Nat) (pt : List Nat) :
    (gcmTag key nh pt).length = 16 := by
  simp [gcmTag]

theorem aesgcmDecrypt_aesgcmEncrypt (key : Nat) (nonce pt : List Nat)
    (hb : ∀ b ∈ pt, b < 256) :
    aesgcmDecrypt key nonce (aesgcmEncrypt key nonce pt) = some pt := by
  unfold aesgcmEncrypt aesgcmDecrypt
  have hlen : (gcmMask key (listHash nonce) 0 pt ++ gcmTag key (listHash nonce) pt).length
      = pt.length + 16 := by
    simp [List.length_append, gcmMask_length, gcmTag_length]
  rw [hlen]
  rw [if_neg (by omega)]
  have hsub : pt.length + 16 - 16 = (gcmMask key (listHash nonce) 0 pt).length := by
    simp [gcmMask_length]
  simp only [hsub, List.take_left, List.drop_left]
  rw [gcmUnmask_gcmMask key (listHash nonce) pt hb 0]
  simp

/-- Round trip helper: the packed blob produced by a successful
`encrypt_data` call. -/
theorem encrypt_data_ok (plaintext : List Nat) (password : String)
    (salt nonce : List Nat) (hpw : password ≠ "") (hs : ¬ salt.length < 8) :
    encrypt_data plaintext password salt nonce =
      Except.ok (_pack_encrypted salt nonce
        (aesgcmEncrypt (pbkdf2Key password salt) nonce plaintext)) := by
  simp [encrypt_data, _derive_key, hpw, hs]

theorem take_append_all {α : Type _} (l1 l2 : List α) (n : Nat) (h : l1.length = n) :
    (l1 ++ l2).take n = l1 := by
  rw [← h]
  exact List.take_left l1 l2

theorem drop_append_all {α : Type _} (l1 l2 : List α) (n : Nat) (h : l1.length = n) :
    (l1 ++ l2).drop n = l2 := by
  rw [← h]
  exact List.drop_left l1 l2

theorem SALT_SIZE_eq : SALT_SIZE = 16 := rfl

theorem NONCE_SIZE_eq : NONCE_SIZE = 12 := rfl

theorem unpack_pack (salt nonce E : List Nat)
    (hs : salt.length = SALT_SIZE) (hn : nonce.length = NONCE_SIZE)
    (hE : 0 < E.length) :
    _unpack_encrypted (_pack_encrypted salt nonce E) = Except.ok (salt, nonce, E) := by
  unfold _pack_encrypted _unpack_encrypted
  have hlen : (salt ++ nonce ++ E).length = 28 + E.length := by
    simp only [List.length_append]
    rw [hs, hn, SALT_SIZE_eq, NONCE_SIZE_eq]
  rw [if_neg (by rw [hlen, SALT_SIZE_eq, NONCE_SIZE_eq]; omega)]
  have h1 : (salt ++ nonce ++ E).take SALT_SIZE = salt := by
    rw [List.append_assoc]
    exact take_append_all salt (nonce ++ E) SALT_SIZE hs
  have h2 : ((salt ++ nonce ++ E).drop SALT_SIZE).take NONCE_SIZE = nonce := by
    rw [List.append_assoc, drop_append_all salt (nonce ++ E) SALT_SIZE hs]
    exact take_append_all nonce E NONCE_SIZE hn
  have h3 : (salt ++ nonce ++ E).drop (SALT_SIZE + NONCE_SIZE) = E := by
    refine drop_append_all (salt ++ nonce) E (SALT_SIZE + NONCE_SIZE) ?_
    simp only [List.length_append]
    rw [hs, hn]
  rw [h1, h2, h3]

/-- C1: Round trip: for every byte payload P and every non-empty password W,
`decrypt_data (encrypt_data P W) W` returns exactly P.  Salt and nonce are
the random inputs drawn by `encrypt_data`; payload bytes are below 256. -/
theorem encrypt_decrypt_roundtrip (pt : List Nat) (password : String)
    (salt nonce : List Nat) (hpw : password ≠ "")
    (hs : salt.length = SALT_SIZE) (hn : nonce.length = NONCE_SIZE)
    (hb : ∀ b ∈ pt, b < 256) :
    ∃ blob, encrypt_data pt password salt nonce = Except.ok blob ∧
      decrypt_data blob password = Except.ok pt := by
  have hs8 : ¬ salt.length < 8 := by rw [hs]; decide
  refine ⟨_, encrypt_data_ok pt password salt nonce hpw hs8, ?_⟩
  have hderive : _derive_key password salt = Except.ok (pbkdf2Key password salt) := by
    simp [_derive_key, hs8]
  have hEpos : 0 < (aesgcmEncrypt (pbkdf2Key password salt) nonce pt).length := by
    unfold aesgcmEncrypt
    simp only [List.length_append, gcmTag_length]
    omega
  unfold decrypt_data
  rw [if_neg hpw, unpack_pack salt nonce _ hs hn hEpos]
  simp only [hderive, aesgcmDecrypt_aesgcmEncrypt (pbkdf2Key password salt) nonce pt hb]

/-- C1 witness: the round trip evaluated at a concrete payload, password,
salt and nonce. -/
theorem encrypt_decrypt_roundtrip_witness :
    ∃ blob, encrypt_data [0, 1, 255] "pw" (List.replicate 16 1) (List.replicate 12 2) =
        Except.ok blob ∧
      decrypt_data blob "pw" = Except.ok [0, 1, 255] :=
  encrypt_decrypt_roundtrip [0, 1, 255] "pw" (List.replicate 16 1)
    (List.replicate 12 2) (by decide) (by decide) (by decide) (by decide)

/-- C8 (amended): a blob shorter than `SALT_SIZE + NONCE_SIZE + 1 = 29`
bytes is rejected by `decrypt_data` with the malformed-blob error before any
key derivation; any blob of at least 29 bytes — including those shorter than
the 44 bytes of salt, nonce and minimum tag — passes the length check and is
unpacked. -/
theorem malformed_blob_min_length (blob : List Nat) (password : String)
    (hpw : password ≠ "") :
    (blob.length < SALT_SIZE + NONCE_SIZE + 1 →
      decrypt_data blob password =
        Except.error (CryptoError.valueError "Encrypted blob too small or corrupted")) ∧
    (SALT_SIZE + NONCE_SIZE + 1 ≤ blob.length →
      _unpack_encrypted blob =
        Except.ok (blob.take SALT_SIZE, (blob.drop SALT_SIZE).take NONCE_SIZE,
          blob.drop (SALT_SIZE + NONCE_SIZE))) := by
  constructor
  · intro h
    unfold decrypt_data
    rw [if_neg hpw]
    unfold _unpack_encrypted
    rw [if_pos h]
  · intro h
    unfold _unpack_encrypted
    rw [if_neg (by omega)]

/-- C8 witness: a 10 byte blob is rejected as malformed. -/
theorem malformed_blob_min_length_witness :
    decrypt_data (List.replicate 10 0) "pw" =
      Except.error (CryptoError.valueError "Encrypted blob too small or corrupted") :=
  (malformed_blob_min_length (List.replicate 10 0) "pw" (by decide)).1 (by decide)

/-- C8 counterexample: a 43 byte all-zero blob is shorter than the 44 bytes
named by the claim, yet `decrypt_data` does not fail with the malformed-blob
error: the blob passes the 29 byte length check, the key is derived, and the
failure is the authentication error from the cipher. -/
theorem malformed_blob_counterexample :
    (List.replicate 43 0).length < 44 ∧
    decrypt_data (List.replicate 43 0) "pw" = Except.error CryptoError.invalidTag ∧
    decrypt_data (List.replicate 43 0) "pw" ≠
      Except.error (CryptoError.valueError "Encrypted blob too small or corrupted") := by
  decide

theorem FS.set_self (fs : FS) (p : String) (c : Option (List Nat)) :
    (fs.set p c) p = c := by
  simp [FS.set]

theorem FS.set_other (fs : FS) (p q : String) (c : Option (List Nat)) (h : q ≠ p) :
    (fs.set p c) q = fs q := by
  simp [FS.set, h]

theorem append_tmp_ne (s : String) : s ++ ".tmp" ≠ s := by
  intro h
  have hl := congrArg String.length h
  rw [String.length_append] at hl
  have h4 : String.length ".tmp" = 4 := by decide
  rw [h4] at hl
  omega

theorem getLast?_cons_append_two {α : Type} (a x y : α) (l : List α) :
    (a :: (l ++ [x, y])).getLast? = some y := by
  have h : a :: (l ++ [x, y]) = (a :: l ++ [x]) ++ [y] := by simp
  rw [h, List.getLast?_concat]

/-- C2 (amended): for every call of `encrypt_file` with `remove_original`
unset or with an input path different from the output path, the file at the
output path is, at every observable moment — including between the
temporary write and the rename — either its prior contents or the new
complete blob, never a partial file.  (The unamended claim fails only for
the self-overwriting call with `remove_original` set, see the
counterexample.) -/
theorem encrypt_file_atomic_states (fs : FS) (in_path password : String)
    (out_path? : Option String) (remove_original : Bool) (salt nonce : List Nat)
    (remove_ok : Bool)
    (hsep : remove_original = false ∨ in_path ≠ out_path?.getD (in_path ++ ".enc")) :
    ∀ s ∈ (encrypt_file fs in_path password out_path? remove_original salt nonce remove_ok).1,
      s (out_path?.getD (in_path ++ ".enc")) = fs (out_path?.getD (in_path ++ ".enc")) ∨
      ∃ data enc, fs in_path = some data ∧
        encrypt_data data password salt nonce = Except.ok enc ∧
        s (out_path?.getD (in_path ++ ".enc")) = some enc := by
  intro s hmem
  cases hin : fs in_path with
  | none =>
      simp only [encrypt_file, hin, List.mem_singleton] at hmem
      subst hmem
      exact Or.inl rfl
  | some data =>
      cases henc : encrypt_data data password salt nonce with
      | error e =>
          simp only [encrypt_file, hin, henc, List.mem_singleton] at hmem
          subst hmem
          exact Or.inl rfl
      | ok enc =>
          have hne : out_path?.getD (in_path ++ ".enc") ≠
              out_path?.getD (in_path ++ ".enc") ++ ".tmp" :=
            Ne.symm (append_tmp_ne _)
          have hrepl : (os_replace
              (fs.set (out_path?.getD (in_path ++ ".enc") ++ ".tmp") (some enc))
              (out_path?.getD (in_path ++ ".enc") ++ ".tmp")
              (out_path?.getD (in_path ++ ".enc")))
              (out_path?.getD (in_path ++ ".enc")) = some enc := by
            unfold os_replace
            rw [FS.set_other _ _ _ _ hne, FS.set_self, FS.set_self]
          have hwt : ∀ t ∈ writeTrace fs (out_path?.getD (in_path ++ ".enc") ++ ".tmp") enc,
              t (out_path?.getD (in_path ++ ".enc")) = fs (out_path?.getD (in_path ++ ".enc")) := by
            intro t ht
            unfold writeTrace at ht
            rcases List.mem_map.mp ht with ⟨k, _, hk⟩
            subst hk
            exact FS.set_other _ _ _ _ hne
          cases remove_original with
          | false =>
              simp only [encrypt_file, hin, henc, Bool.false_eq_true, if_false] at hmem
              rcases List.mem_cons.mp hmem with h | h
              · subst h; exact Or.inl rfl
              rcases List.mem_append.mp h with h2 | h2
              · exact Or.inl (hwt s h2)
              · rcases List.mem_singleton.mp h2 with h3
                subst h3
                exact Or.inr ⟨data, enc, rfl, henc, hrepl⟩
          | true =>
              have hio : in_path ≠ out_path?.getD (in_path ++ ".enc") := by
                rcases hsep with h | h
                · exact absurd h (by simp)
                · exact h
              cases remove_ok with
              | false =>
                  simp only [encrypt_file, hin, henc, Bool.false_eq_true, if_true, if_false] at hmem
                  rcases List.mem_cons.mp hmem with h | h
                  · subst h; exact Or.inl rfl
                  rcases List.mem_append.mp h with h2 | h2
                  · exact Or.inl (hwt s h2)
                  · rcases List.mem_cons.mp h2 with h3 | h3
                    · subst h3
                      exact Or.inr ⟨data, enc, rfl, henc, hrepl⟩
                    · rcases List.mem_singleton.mp h3 with h4
                      subst h4
                      exact Or.inr ⟨data, enc, rfl, henc, hrepl⟩
              | true =>
                  simp only [encrypt_file, hin, henc, if_true] at hmem
                  rcases List.mem_cons.mp hmem with h | h
                  · subst h; exact Or.inl rfl
                  rcases List.mem_append.mp h with h2 | h2
                  · exact Or.inl (hwt s h2)
                  · rcases List.mem_cons.mp h2 with h3 | h3
                    · subst h3
                      exact Or.inr ⟨data, enc, rfl, henc, hrepl⟩
                    · rcases List.mem_singleton.mp h3 with h4
                      subst h4
                      refine Or.inr ⟨data, enc, rfl, henc, ?_⟩
                      rw [FS.set_other _ _ _ _ (Ne.symm hio)]
                      exact hrepl

/-- C2 witness: the atomicity statement applied to a concrete call, at the
initial observable state. -/
theorem encrypt_file_atomic_states_witness :
    fsW ((none : Option String).getD ("plain.txt" ++ ".enc")) =
      fsW ((none : Option String).getD ("plain.txt" ++ ".enc")) ∨
    ∃ data enc, fsW "plain.txt" = some data ∧
      encrypt_data data "pw" saltW nonceW = Except.ok enc ∧
      fsW ((none : Option String).getD ("plain.txt" ++ ".enc")) = some enc :=
  encrypt_file_atomic_states fsW "plain.txt" "pw" none false saltW nonceW true
    (Or.inl rfl) fsW (List.mem_cons_self _ _)

/-- C2 counterexample: the claim quantifies over every call of
`encrypt_file`; for the call with output path equal to the input path and
`remove_original` set, the final observable state has the output path
absent, although a prior complete blob existed there and this is not a
first write — contradicting "either the prior complete blob (or absent, on
first write) or the new complete blob". -/
theorem encrypt_file_atomicity_counterexample :
    fsC "f" = some [9] ∧
    (encrypt_file fsC "f" "pw" (some "f") true saltW nonceW true).2 = Except.ok "f" ∧
    ((encrypt_file fsC "f" "pw" (some "f") true saltW nonceW true).1.getLast?).map
      (fun s => s "f") = some none := by
  decide

/-- C10: when `encrypt_file` runs with `remove_original = true` and the
deletion of the plaintext original fails, the failure is swallowed by the
bare `except` clause: the call still returns the output path as success,
the encrypted blob is committed at the output path, and the plaintext
source remains on disk, with no error reported to the caller. -/
theorem remove_original_failure_swallowed (fs : FS) (in_path password : String)
    (out_path? : Option String) (salt nonce : List Nat) (data : List Nat)
    (h1 : fs in_path = some data) (hpw : password ≠ "") (hs8 : ¬ salt.length < 8)
    (h4 : in_path ≠ out_path?.getD (in_path ++ ".enc"))
    (h5 : in_path ≠ out_path?.getD (in_path ++ ".enc") ++ ".tmp") :
    (encrypt_file fs in_path password out_path? true salt nonce false).2 =
      Except.ok (out_path?.getD (in_path ++ ".enc")) ∧
    ((encrypt_file fs in_path password out_path? true salt nonce false).1.getLast?).map
        (fun s => (s in_path, s (out_path?.getD (in_path ++ ".enc")))) =
      some (some data,
        some (_pack_encrypted salt nonce
          (aesgcmEncrypt (pbkdf2Key password salt) nonce data))) := by
  have henc := encrypt_data_ok data password salt nonce hpw hs8
  have hne : out_path?.getD (in_path ++ ".enc") ≠
      out_path?.getD (in_path ++ ".enc") ++ ".tmp" :=
    Ne.symm (append_tmp_ne _)
  constructor
  · simp only [encrypt_file, h1, henc, if_true]
  · simp only [encrypt_file, h1, henc, Bool.false_eq_true, if_true, if_false,
      getLast?_cons_append_two]
    unfold os_replace
    simp [FS.set, h1, h4, h5, hne]

/-- C10 witness: the swallowed-removal behaviour at a concrete call. -/
theorem remove_original_failure_swallowed_witness :
    (encrypt_file fsW "plain.txt" "pw" none true saltW nonceW false).2 =
      Except.ok ((none : Option String).getD ("plain.txt" ++ ".enc")) ∧
    ((encrypt_file fsW "plain.txt" "pw" none true saltW nonceW false).1.getLast?).map
        (fun s => (s "plain.txt", s ((none : Option String).getD ("plain.txt" ++ ".enc")))) =
      some (some [1, 2],
        some (_pack_encrypted saltW nonceW
          (aesgcmEncrypt (pbkdf2Key "pw" saltW) nonceW [1, 2]))) :=
  remove_original_failure_swallowed fsW "plain.txt" "pw" none saltW nonceW [1, 2]
    (by decide) (by decide) (by decide) (by decide) (by decide)

theorem pyLtL_irrefl (l : List Char) : pyLtL l l = false := by
  induction l with
  | nil => rfl
  | cons a as ih => simp [pyLtL, ih]

theorem pyLtL_trans (l1 : List Char) : ∀ l2 l3,
    pyLtL l1 l2 = true → pyLtL l2 l3 = true → pyLtL l1 l3 = true := by
  induction l1 with
  | nil =>
      intro l2 l3 h12 h23
      cases l3 with
      | nil =>
          cases l2 with
          | nil => exact absurd h23 (by simp [pyLtL])
          | cons b bs => exact absurd h23 (by simp [pyLtL])
      | cons c cs => rfl
  | cons a as ih =>
      intro l2 l3 h12 h23
      cases l2 with
      | nil => exact absurd h12 (by simp [pyLtL])
      | cons b bs =>
          cases l3 with
          | nil => exact absurd h23 (by simp [pyLtL])
          | cons c cs =>
              simp only [pyLtL] at h12 h23 ⊢
              by_cases hab : a.toNat < b.toNat
              · by_cases hbc : b.toNat < c.toNat
                · simp [Nat.lt_trans hab hbc]
                · by_cases hcb : c.toNat < b.toNat
                  · simp [hbc, hcb] at h23
                  · have hac : a.toNat < c.toNat := by omega
                    simp [hac]
              · by_cases hba : b.toNat < a.toNat
                · simp [hab, hba] at h12
                · simp only [hab, hba, if_false] at h12
                  by_cases hbc : b.toNat < c.toNat
                  · have hac : a.toNat < c.toNat := by omega
                    simp [hac]
                  · by_cases hcb : c.toNat < b.toNat
                    · simp [hbc, hcb] at h23
                    · simp only [hbc, hcb, if_false] at h23
                      have hnac : ¬ a.toNat < c.toNat := by omega
                      have hnca : ¬ c.toNat < a.toNat := by omega
                      simp only [hnac, hnca, if_false]
                      exact ih bs cs h12 h23

theorem pyStrLt_irrefl (s : String) : pyStrLt s s = false := pyLtL_irrefl s.data

theorem pyStrLt_trans (a b c : String) (h1 : pyStrLt a b = true)
    (h2 : pyStrLt b c = true) : pyStrLt a c = true :=
  pyLtL_trans a.data b.data c.data h1 h2

theorem pyStrLt_asymm (a b : String) (h : pyStrLt a b = true) :
    pyStrLt b a = false := by
  cases hb : pyStrLt b a with
  | false => rfl
  | true =>
      have h2 := pyStrLt_trans a b a h hb
      rw [pyStrLt_irrefl] at h2
      exact Bool.noConfusion h2

theorem lookA_modA_self {α : Type} (k : String) (dflt : α) (f : α → α)
    (l : List (String × α)) :
    lookA k (modA k dflt f l) = some (f ((lookA k l).getD dflt)) := by
  induction l with
  | nil => simp [lookA, modA]
  | cons kv t ih =>
      obtain ⟨k2, v⟩ := kv
      by_cases h : k2 = k
      · subst h; simp [lookA, modA]
      · simp [lookA, modA, h, ih]

theorem lookA_modA_other {α : Type} (k k2 : String) (dflt : α) (f : α → α)
    (l : List (String × α)) (h : k2 ≠ k) :
    lookA k2 (modA k dflt f l) = lookA k2 l := by
  induction l with
  | nil => simp [lookA, modA, Ne.symm h]
  | cons kv t ih =>
      obtain ⟨k3, v⟩ := kv
      by_cases h3 : k3 = k
      · subst h3
        simp [lookA, modA, Ne.symm h]
      · simp [lookA, modA, h3, ih]

theorem lookA_setA_self {α : Type} (k : String) (v : α) (l : List (String × α)) :
    lookA k (setA k v l) = some v := by
  induction l with
  | nil => simp [lookA, setA]
  | cons kv t ih =>
      obtain ⟨k2, v2⟩ := kv
      by_cases h : k2 = k
      · subst h; simp [lookA, setA]
      · simp [lookA, setA, h, ih]

theorem lookA_setA_other {α : Type} (k k2 : String) (v : α)
    (l : List (String × α)) (h : k2 ≠ k) :
    lookA k2 (setA k v l) = lookA k2 l := by
  induction l with
  | nil => simp [lookA, setA, Ne.symm h]
  | cons kv t ih =>
      obtain ⟨k3, v3⟩ := kv
      by_cases h3 : k3 = k
      · subst h3
        simp [lookA, setA, Ne.symm h]
      · simp [lookA, setA, h3, ih]

theorem lookup3_ins3_self (g : Grouped) (k : String × String × String) (r : Record) :
    lookup3 (ins3 g k r) k = some r := by
  obtain ⟨p, s, d⟩ := k
  unfold lookup3 ins3
  rw [lookA_modA_self]
  simp only [Option.getD_some]
  rw [lookA_modA_self]
  simp only [Option.getD_some]
  rw [lookA_setA_self]

theorem lookup3_ins3_other (g : Grouped) (k k2 : String × String × String) (r : Record)
    (h : k2 ≠ k) : lookup3 (ins3 g k r) k2 = lookup3 g k2 := by
  obtain ⟨p, s, d⟩ := k
  obtain ⟨p2, s2, d2⟩ := k2
  by_cases hp : p2 = p
  · subst hp
    by_cases hs : s2 = s
    · subst hs
      have hd : d2 ≠ d := fun he => h (by rw [he])
      unfold lookup3 ins3
      rw [lookA_modA_self]
      simp only [Option.getD_some]
      rw [lookA_modA_self]
      simp only [Option.getD_some]
      rw [lookA_setA_other _ _ _ _ hd]
    · unfold lookup3 ins3
      rw [lookA_modA_self]
      simp only [Option.getD_some]
      rw [lookA_modA_other _ _ _ _ _ hs]
  · unfold lookup3 ins3
    rw [lookA_modA_other _ _ _ _ _ hp]

theorem withColor_end (r : Record) : endOf (withColor r) = endOf r := rfl

theorem step_slot (g : Grouped) (r : Record) (k : String × String × String) (v : Record)
    (h : lookup3 g k = some v) :
    ∃ v2, lookup3 (step g r) k = some v2 ∧
      (v2 = v ∨ pyStrLt (endOf v) (endOf v2) = true) := by
  cases hk : recordKey r with
  | none =>
      refine ⟨v, ?_, Or.inl rfl⟩
      simp only [step, hk]
      exact h
  | some k2 =>
      by_cases hkk : k = k2
      · subst hkk
        cases hlt : pyStrLt (endOf v) (endOf r) with
        | true =>
            refine ⟨withColor r, ?_, Or.inr ?_⟩
            · simp only [step, hk, h, hlt, if_true, lookup3_ins3_self]
            · rw [withColor_end]
              exact hlt
        | false =>
            refine ⟨v, ?_, Or.inl rfl⟩
            simp only [step, hk, h, hlt, Bool.false_eq_true, if_false]
      · cases hl : lookup3 g k2 with
        | none =>
            refine ⟨v, ?_, Or.inl rfl⟩
            simp only [step, hk, hl]
            rw [lookup3_ins3_other _ _ _ _ hkk]
            exact h
        | some old =>
            cases hlt : pyStrLt (endOf old) (endOf r) with
            | true =>
                refine ⟨v, ?_, Or.inl rfl⟩
                simp only [step, hk, hl, hlt, if_true]
                rw [lookup3_ins3_other _ _ _ _ hkk]
                exact h
            | false =>
                refine ⟨v, ?_, Or.inl rfl⟩
                simp only [step, hk, hl, hlt, Bool.false_eq_true, if_false]
                exact h

theorem fold_slot (l : List Record) (g : Grouped) (k : String × String × String)
    (v : Record) (e : String) (h : lookup3 g k = some v)
    (hd : pyStrLt (endOf v) e = false) :
    ∃ v2, lookup3 (l.foldl step g) k = some v2 ∧ pyStrLt (endOf v2) e = false := by
  induction l generalizing g v with
  | nil => exact ⟨v, h, hd⟩
  | cons r t ih =>
      obtain ⟨v2, h2, hrel⟩ := step_slot g r k v h
      have hd2 : pyStrLt (endOf v2) e = false := by
        rcases hrel with rfl | hlt
        · exact hd
        · cases hb : pyStrLt (endOf v2) e with
          | false => rfl
          | true =>
              have htr := pyStrLt_trans _ _ _ hlt hb
              rw [hd] at htr
              exact Bool.noConfusion htr
      exact ih (step g r) v2 h2 hd2

theorem step_self (g : Grouped) (r : Record) (k : String × String × String)
    (hk : recordKey r = some k) :
    ∃ v, lookup3 (step g r) k = some v ∧ pyStrLt (endOf v) (endOf r) = false := by
  cases hl : lookup3 g k with
  | none =>
      refine ⟨withColor r, ?_, ?_⟩
      · simp only [step, hk, hl, lookup3_ins3_self]
      · rw [withColor_end, pyStrLt_irrefl]
  | some old =>
      cases hlt : pyStrLt (endOf old) (endOf r) with
      | true =>
          refine ⟨withColor r, ?_, ?_⟩
          · simp only [step, hk, hl, hlt, if_true, lookup3_ins3_self]
          · rw [withColor_end, pyStrLt_irrefl]
      | false =>
          refine ⟨old, ?_, hlt⟩
          simp only [step, hk, hl, hlt, Bool.false_eq_true, if_false]

theorem fold_dominates (l : List Record) (r : Record)
    (k : String × String × String) (hk : recordKey r = some k) :
    ∀ g, r ∈ l →
      ∃ v, lookup3 (l.foldl step g) k = some v ∧ pyStrLt (endOf v) (endOf r) = false := by
  induction l with
  | nil =>
      intro g hr
      cases hr
  | cons a t ih =>
      intro g hr
      rcases List.mem_cons.mp hr with h | hmem
      · subst h
        obtain ⟨v, hv, hd⟩ := step_self g r k hk
        exact fold_slot t (step g r) k v (endOf r) hv hd
      · exact ih (step g a) hmem

theorem step_noop (g : Grouped) (r : Record)
    (h : ∀ k, recordKey r = some k →
      ∃ v, lookup3 g k = some v ∧ pyStrLt (endOf v) (endOf r) = false) :
    step g r = g := by
  cases hk : recordKey r with
  | none => simp only [step, hk]
  | some k =>
      obtain ⟨v, hv, hd⟩ := h k hk
      simp only [step, hk, hv, hd, Bool.false_eq_true, if_false]

theorem fold_const (l : List Record) (M : Grouped) (h : ∀ r ∈ l, step M r = M) :
    l.foldl step M = M := by
  induction l with
  | nil => rfl
  | cons a t ih =>
      have ha := h a (List.mem_cons_self a t)
      simp only [List.foldl_cons, ha]
      exact ih (fun r hr => h r (List.mem_cons_of_mem a hr))

/-- C3 (amended): ingesting the duplicated list `R ++ R` builds exactly the
same index as ingesting R.  (Order-independence, the other half of the
original claim, fails: see the counterexample — two records for the same
key with equal end timestamps are kept first-write-wins, so a permutation
can change the kept record.) -/
theorem ingest_duplicate_idempotent (R : List Record) :
    buildData (R ++ R) = buildData R := by
  unfold buildData
  rw [List.foldl_append]
  apply fold_const
  intro r hr
  apply step_noop
  intro k hk
  exact fold_dominates R r k hk [] hr

/-- C3 counterexample: ingestion is not order-independent.  `rC0` and `rD0`
share the key and the end timestamp; the replacement condition is strictly
greater end only, so whichever record arrives first is kept, and the two
permutations of the same record set build different indexes. -/
theorem ingest_order_dependent_counterexample :
    lookup3 (buildData [rC0, rD0]) ("P", "S", "2024.01.01") ≠
      lookup3 (buildData [rD0, rC0]) ("P", "S", "2024.01.01") := by
  decide

theorem lookup3_nil (k : String × String × String) : lookup3 [] k = none := rfl

/-- C4 (amended): among two records for the same (project, suite, date)
key, the one with the strictly later end timestamp (Python string
comparison, missing end compared as "") wins regardless of input order;
when the end timestamps are equal the earliest-ingested record is kept —
the stored record is replaced only on strictly greater end, and the start
timestamp plays no role. -/
theorem tiebreak_later_end_wins (r1 r2 : Record) (k : String × String × String)
    (h1 : recordKey r1 = some k) (h2 : recordKey r2 = some k) :
    (pyStrLt (endOf r1) (endOf r2) = true →
      lookup3 (buildData [r1, r2]) k = some (withColor r2) ∧
      lookup3 (buildData [r2, r1]) k = some (withColor r2)) ∧
    (endOf r1 = endOf r2 →
      lookup3 (buildData [r1, r2]) k = some (withColor r1)) := by
  have e1 : step ([] : Grouped) r1 = ins3 [] k (withColor r1) := by
    simp only [step, h1, lookup3_nil]
  have e2 : step ([] : Grouped) r2 = ins3 [] k (withColor r2) := by
    simp only [step, h2, lookup3_nil]
  constructor
  · intro hlt
    constructor
    · simp only [buildData, List.foldl_cons, List.foldl_nil, e1]
      simp only [step, h2, lookup3_ins3_self, withColor_end, hlt, if_true,
        lookup3_ins3_self]
    · simp only [buildData, List.foldl_cons, List.foldl_nil, e2]
      have hasym := pyStrLt_asymm _ _ hlt
      simp only [step, h1, lookup3_ins3_self, withColor_end, hasym,
        Bool.false_eq_true, if_false, lookup3_ins3_self]
  · intro heq
    simp only [buildData, List.foldl_cons, List.foldl_nil, e1]
    simp only [step, h2, lookup3_ins3_self, withColor_end, heq, pyStrLt_irrefl,
      Bool.false_eq_true, if_false, lookup3_ins3_self]

/-- C4 witness: the record with the later end timestamp wins in both
ingestion orders. -/
theorem tiebreak_later_end_wins_witness :
    lookup3 (buildData [rE0, rF0]) ("P", "S", "2024.01.01") = some (withColor rF0) ∧
    lookup3 (buildData [rF0, rE0]) ("P", "S", "2024.01.01") = some (withColor rF0) :=
  (tiebreak_later_end_wins rE0 rF0 ("P", "S", "2024.01.01")
    (by decide) (by decide)).1 (by decide)

/-- C4 counterexample: the claim says that with equal end timestamps the
later start timestamp wins and that with all timestamps equal the later
ingested record wins.  The code keeps the earlier-ingested record `rA0`
although `rB0` has the later start — the start fallback and last-write-wins
of the claim do not exist. -/
theorem tiebreak_counterexample :
    rA0.end_ = rB0.end_ ∧
    rA0.start = some "2024-01-01T08:00:00Z" ∧
    rB0.start = some "2024-01-01T09:00:00Z" ∧
    lookup3 (buildData [rA0, rB0]) ("P", "S", "2024.01.01") = some (withColor rA0) ∧
    withColor rA0 ≠ withColor rB0 := by
  decide

/-- C5: classification of executed runs (total > 0): red when the sub-count
sum differs from total; otherwise green when all cases passed with no
retries, yellow when all cases passed with retries, and red in every
remaining case. -/
theorem get_color_executed_cases (r : Record) (h : 0 < r.test_cases.getD 0) :
    (r.passed.getD 0 + r.failed.getD 0 + r.error.getD 0 + r.incomplete.getD 0 +
        r.skipped.getD 0 ≠ r.test_cases.getD 0 → get_color r = "red") ∧
    (r.passed.getD 0 + r.failed.getD 0 + r.error.getD 0 + r.incomplete.getD 0 +
        r.skipped.getD 0 = r.test_cases.getD 0 →
      (r.passed.getD 0 = r.test_cases.getD 0 ∧ r.retry_count.getD 0 = 0 →
        get_color r = "green") ∧
      (r.passed.getD 0 = r.test_cases.getD 0 ∧ 0 < r.retry_count.getD 0 →
        get_color r = "yellow") ∧
      (r.passed.getD 0 ≠ r.test_cases.getD 0 → get_color r = "red")) := by
  constructor
  · intro hne
    simp [get_color, hne]
  · intro hsum
    refine ⟨?_, ?_, ?_⟩
    · intro hp
      simp [get_color, hsum, hp.1, hp.2]
      omega
    · intro hp
      simp [get_color, hsum, hp.1, hp.2]
      omega
    · intro hp
      simp [get_color, hsum, hp]

/-- C5 witness: the classifier evaluated on an executed, fully passing
record. -/
theorem get_color_executed_cases_witness : get_color rGreen = "green" :=
  ((get_color_executed_cases rGreen (by decide)).2 (by decide)).1 (by decide)

/-- C7 counterexample: a record with total 0 and all sub-counts 0 is
classified green, not red: the sub-count sum equals the total and passed
equals total, so the claimed unconditional red for total 0 is false. -/
theorem get_color_total_zero_counterexample :
    rEmpty.test_cases.getD 0 = 0 ∧ get_color rEmpty = "green" ∧
      get_color rEmpty ≠ "red" := by
  decide

/-- C7 (amended): for a record with total 0 the classifier returns red only
when the sub-count sum is nonzero; when every sub-count is zero, passed
equals total, so the record is classified green without retries and yellow
with retries. -/
theorem get_color_total_zero_cases (r : Record) (h : r.test_cases.getD 0 = 0) :
    (r.passed.getD 0 + r.failed.getD 0 + r.error.getD 0 + r.incomplete.getD 0 +
        r.skipped.getD 0 ≠ 0 → get_color r = "red") ∧
    (r.passed.getD 0 + r.failed.getD 0 + r.error.getD 0 + r.incomplete.getD 0 +
        r.skipped.getD 0 = 0 →
      (r.retry_count.getD 0 = 0 → get_color r = "green") ∧
      (0 < r.retry_count.getD 0 → get_color r = "yellow")) := by
  constructor
  · intro hne
    simp [get_color, h, hne]
  · intro hsum
    have hp : r.passed.getD 0 = 0 := by omega
    constructor
    · intro hr
      simp [get_color, h, hsum, hp, hr]
      omega
    · intro hr
      simp [get_color, h, hsum, hp, hr]
      omega

/-- C7 witness for the amended statement: the all-zero record is green. -/
theorem get_color_total_zero_cases_witness : get_color rEmpty = "green" :=
  ((get_color_total_zero_cases rEmpty (by decide)).2 (by decide)).1 (by decide)

/-- C6 (amended): the date key is computed from the start timestamp,
falling back to the end timestamp only when start is missing or empty; a
record with neither usable timestamp is skipped entirely by the grouping
loop — there is no "unknown" bucket. -/
theorem date_key_start_fallback_end (r : Record) :
    (∀ s, pyTruthy r.start = some s → recordDate r = some (dateKey s)) ∧
    (pyTruthy r.start = none → ∀ e, pyTruthy r.end_ = some e →
      recordDate r = some (dateKey e)) ∧
    (pyTruthy r.start = none → pyTruthy r.end_ = none →
      recordDate r = none ∧ ∀ g, step g r = g) := by
  refine ⟨?_, ?_, ?_⟩
  · intro s hs
    simp only [recordDate, hs]
  · intro hs e he
    simp only [recordDate, hs, he]
  · intro hs he
    have hrd : recordDate r = none := by simp only [recordDate, hs, he]
    exact ⟨hrd, fun g => by simp only [step, recordKey, hrd]⟩

/-- C6 witness: the date key of a record with both timestamps comes from
the start timestamp. -/
theorem date_key_start_fallback_end_witness :
    recordDate rA0 = some (dateKey "2024-01-01T08:00:00Z") :=
  (date_key_start_fallback_end rA0).1 "2024-01-01T08:00:00Z" (by decide)

/-- C6 counterexample: the claim derives the date key from the end
timestamp with start as fallback; the code does the opposite.  A record
ending on 2024-03-02 but started on 2024-03-01 is indexed under 2024.03.01
and not under the end date. -/
theorem date_key_counterexample :
    rE1.end_ = some "2024-03-02T01:00:00Z" ∧
    recordDate rE1 = some "2024.03.01" ∧
    recordDate rE1 ≠ some (dateKey "2024-03-02T01:00:00Z") ∧
    lookup3 (buildData [rE1]) ("P", "S", "2024.03.02") = none ∧
    lookup3 (buildData [rE1]) ("P", "S", "2024.03.01") = some (withColor rE1) := by
  decide

theorem go_joinSep (sep : String) : ∀ (l : List String) (acc : String),
    String.intercalate.go acc sep l = acc ++ joinSep sep l := by
  intro l
  induction l with
  | nil =>
      intro acc
      simp [String.intercalate.go, joinSep]
  | cons a as ih =>
      intro acc
      rw [show String.intercalate.go acc sep (a :: as) =
        String.intercalate.go (acc ++ sep ++ a) sep as from rfl]
      rw [ih]
      simp [joinSep, String.append_assoc]

theorem intercalate_joinSep (sep x : String) (xs : List String) :
    String.intercalate sep (x :: xs) = x ++ joinSep sep xs := by
  show String.intercalate.go x sep xs = _
  rw [go_joinSep]

/-- C9 (amended): the dashboard output depends on the password only
through its SHA-256 hash value: two runs over the same results whose
passwords have the same hash produce identical HTML, and the raw password
itself never flows into the output.  (The hash itself IS embedded, so the
unamended claim fails — see the counterexample.) -/
theorem dashboard_noninterference_up_to_hash (results : List Record)
    (p1 p2 : String) (h : passwordHash p1 = passwordHash p2) :
    build_dashboard results p1 = build_dashboard results p2 := by
  simp only [build_dashboard, h]

/-- C9 witness: the noninterference statement applied at a concrete run. -/
theorem dashboard_noninterference_up_to_hash_witness :
    build_dashboard [rGreen] "secret" = build_dashboard [rGreen] "secret" :=
  dashboard_noninterference_up_to_hash [rGreen] "secret" "secret" rfl

set_option maxRecDepth 8000 in
/-- C9 counterexample: the generated dashboard HTML embeds the SHA-256
hash of the REPORT_PASSWORD secret as the `PASSWORD_HASH` script constant,
so two runs over identical results data that differ only in the password
produce different HTML — the output does contain a value derived from the
password.  The proof peels the password-independent prefix of the
generated page and reduces the difference to the two distinct hash
digests. -/
theorem dashboard_password_counterexample :
    build_dashboard [rC0] "a" ≠ build_dashboard [rC0] "b" := by
  intro h
  simp only [build_dashboard, List.isEmpty_cons, Bool.false_eq_true, if_false, htmlHead,
    List.cons_append, List.nil_append, Option.some.injEq] at h
  rw [intercalate_joinSep, intercalate_joinSep] at h
  simp only [joinSep] at h
  have h2 := congrArg String.data h
  simp only [String.data_append, List.append_assoc] at h2
  repeat replace h2 := List.append_cancel_left h2
  have hlen : (passwordHash "a").data.length = (passwordHash "b").data.length := by
    decide
  have h3 := congrArg (fun l => List.take (passwordHash "a").data.length l) h2
  simp only [] at h3
  rw [take_append_all _ _ _ rfl] at h3
  rw [hlen, take_append_all _ _ _ rfl] at h3
  exact (by decide : ¬ (passwordHash "a").data = (passwordHash "b").data) h3
